import Mathlib

set_option autoImplicit false

/-!
Shallow embedding of the kyansel crate: a race combinator between a primary
future and a "stopper" future.

A child future is modelled as a step function on an explicit state type:
polling it maps a state to a new state together with a poll result.  The
combinator's `poll` is then a pure function of the two step functions and the
combinator's own state (the pair of child states), mirroring the Rust code
line by line.

Two variants are embedded:
- `Kyansel` models `src/src/lib.rs` (std futures, result-splitting policy):
  poll results are `Poll` (`Ready`/`Pending`) and the outcome type is
  `CancellableResult` (`Finished`/`Cancelled`).
- `F01` models `src/src/futures_01.rs` (error-channel policy): poll results
  are `Except e (Async a)` (`Ok(Async)`/`Err(e)`), the stopper slot is an
  `Option`, and the error type is `CancellableError` (`Cancelled`/`Errored`).
- `FStd` models the `cancel_with` of `src/src/futures_std.rs`, whose struct
  and poll are identical to `lib.rs` but whose `cancel_with` takes a
  zero-argument producer for the stopper; the producer's effect is made
  observable by threading an explicit producer state.

Instrumented `pollTr` variants additionally return, in order, the list of
child operations the call attempted to poll; they are proved to project onto
the plain `poll` functions.
-/

/-- Which child operation a single combinator poll call attempted. -/
inductive Polled where
  | primary
  | stopper

namespace Kyansel

/-- Poll status of a std-futures operation: ready with a value, or pending. -/
inductive Poll (α : Type) where
  | Ready : α → Poll α
  | Pending : Poll α

/-- Result returned by `Cancellable` (lib.rs `CancellableResult`). -/
inductive CancellableResult (T S : Type) where
  | Finished : T → CancellableResult T S
  | Cancelled : S → CancellableResult T S

/-- Check if the future was cancelled (lib.rs `CancellableResult::is_cancelled`). -/
def CancellableResult.is_cancelled {T S : Type} : CancellableResult T S → Bool
  | CancellableResult.Cancelled _ => true
  | _ => false

/-- Retrieve the result of the future if it was not cancelled
(lib.rs `CancellableResult::finished`). -/
def CancellableResult.finished {T S : Type} : CancellableResult T S → Option T
  | CancellableResult.Finished f => some f
  | _ => none

/-- Retrieve the result of the canceller future if the future was cancelled
(lib.rs `CancellableResult::cancelled`). -/
def CancellableResult.cancelled {T S : Type} : CancellableResult T S → Option S
  | CancellableResult.Cancelled s => some s
  | _ => none

/-- State of the combinator (lib.rs `Cancellable`): the two child states. -/
structure Cancellable (F S : Type) where
  inner : F
  stopper : S

/-- One poll of the combinator (lib.rs `impl Future for Cancellable`, `poll`):
poll the inner future first; if it is ready return `Finished` at once without
touching the stopper; otherwise poll the stopper and return `Cancelled` if it
is ready; otherwise stay pending.  `pf` and `ps` are the child step
functions. -/
def Cancellable.poll {F S α β : Type}
    (pf : F → F × Poll α) (ps : S → S × Poll β) (c : Cancellable F S) :
    Cancellable F S × Poll (CancellableResult α β) :=
  match pf c.inner with
  | (f', Poll.Ready ready) =>
      (⟨f', c.stopper⟩, Poll.Ready (CancellableResult.Finished ready))
  | (f', Poll.Pending) =>
      match ps c.stopper with
      | (s', Poll.Ready s) => (⟨f', s'⟩, Poll.Ready (CancellableResult.Cancelled s))
      | (s', Poll.Pending) => (⟨f', s'⟩, Poll.Pending)

/-- Instrumented copy of `Cancellable.poll` that also records, in order,
which children the call polled. -/
def Cancellable.pollTr {F S α β : Type}
    (pf : F → F × Poll α) (ps : S → S × Poll β) (c : Cancellable F S) :
    (Cancellable F S × Poll (CancellableResult α β)) × List Polled :=
  match pf c.inner with
  | (f', Poll.Ready ready) =>
      ((⟨f', c.stopper⟩, Poll.Ready (CancellableResult.Finished ready)),
        [Polled.primary])
  | (f', Poll.Pending) =>
      match ps c.stopper with
      | (s', Poll.Ready s) =>
          ((⟨f', s'⟩, Poll.Ready (CancellableResult.Cancelled s)),
            [Polled.primary, Polled.stopper])
      | (s', Poll.Pending) =>
          ((⟨f', s'⟩, Poll.Pending), [Polled.primary, Polled.stopper])

/-- Fluent combinator construction (lib.rs `FutureCancellable::cancel_with`). -/
def FutureCancellable.cancel_with {F S : Type} (self : F) (stopper : S) :
    Cancellable F S :=
  ⟨self, stopper⟩

/-- Free-function combinator construction (lib.rs `cancellable`). -/
def cancellable {F S : Type} (inner : F) (stopper : S) : Cancellable F S :=
  ⟨inner, stopper⟩

end Kyansel

namespace F01

/-- Poll status of a futures-0.1 operation (`Async`). -/
inductive Async (α : Type) where
  | Ready : α → Async α
  | NotReady : Async α

/-- Error returned by the futures-0.1 `Cancellable`
(futures_01.rs `CancellableError`). -/
inductive CancellableError (C E : Type) where
  | Cancelled : C → CancellableError C E
  | Errored : E → CancellableError C E

/-- Check if the future was cancelled (futures_01.rs `is_cancelled`). -/
def CancellableError.is_cancelled {C E : Type} : CancellableError C E → Bool
  | CancellableError.Cancelled _ => true
  | _ => false

/-- Retrieve the error of the future if it was not cancelled and it errored
(futures_01.rs `errored`). -/
def CancellableError.errored {C E : Type} : CancellableError C E → Option E
  | CancellableError.Errored e => some e
  | _ => none

/-- Retrieve the result of the canceller future if the future was cancelled
(futures_01.rs `cancelled`). -/
def CancellableError.cancelled {C E : Type} : CancellableError C E → Option C
  | CancellableError.Cancelled c => some c
  | _ => none

/-- State of the futures-0.1 combinator (futures_01.rs `Cancellable`): the
inner child state and an optional stopper slot. -/
structure Cancellable (F S : Type) where
  inner : F
  stopper : Option S

/-- The stopper step of futures_01.rs `poll` (the `if let Some(ref mut
stopper)` block followed by returning `inner`): if a stopper is present poll
it; a ready stopper returns `Cancelled`, a pending one falls through, a
failed one clears the slot; otherwise return the recorded inner result. -/
def Cancellable.pollStopper {F S α β ε ε2 : Type}
    (ps : S → S × Except ε2 (Async β)) (f' : F) (st : Option S)
    (inner : Except (CancellableError β ε) (Async α)) :
    Cancellable F S × Except (CancellableError β ε) (Async α) :=
  match st with
  | none => (⟨f', none⟩, inner)
  | some s =>
      match ps s with
      | (s', Except.ok (Async.Ready v)) =>
          (⟨f', some s'⟩, Except.error (CancellableError.Cancelled v))
      | (s', Except.ok Async.NotReady) => (⟨f', some s'⟩, inner)
      | (_, Except.error _) => (⟨f', none⟩, inner)

/-- One poll of the futures-0.1 combinator (futures_01.rs `impl Future for
Cancellable`, `poll`): always poll the inner future first; if it is ready
return `Ok(Ready)` at once without touching the stopper; otherwise record the
inner result (`Ok(NotReady)` or `Err(Errored(e))`), run the stopper step, and
finally return the recorded inner result when the stopper produced no
return. -/
def Cancellable.poll {F S α β ε ε2 : Type}
    (pf : F → F × Except ε (Async α)) (ps : S → S × Except ε2 (Async β))
    (c : Cancellable F S) :
    Cancellable F S × Except (CancellableError β ε) (Async α) :=
  match pf c.inner with
  | (f', Except.ok (Async.Ready v)) => (⟨f', c.stopper⟩, Except.ok (Async.Ready v))
  | (f', Except.ok Async.NotReady) =>
      Cancellable.pollStopper ps f' c.stopper (Except.ok Async.NotReady)
  | (f', Except.error e) =>
      Cancellable.pollStopper ps f' c.stopper
        (Except.error (CancellableError.Errored e))

/-- What polling the primary alone would return, encoded on the combinator's
result type: successes pass through, a primary failure becomes `Errored`. -/
def innerOutcome {α β ε : Type} :
    Except ε (Async α) → Except (CancellableError β ε) (Async α)
  | Except.ok x => Except.ok x
  | Except.error e => Except.error (CancellableError.Errored e)

/-- Instrumented copy of `Cancellable.pollStopper` recording whether the
stopper was polled. -/
def Cancellable.pollStopperTr {F S α β ε ε2 : Type}
    (ps : S → S × Except ε2 (Async β)) (f' : F) (st : Option S)
    (inner : Except (CancellableError β ε) (Async α)) :
    (Cancellable F S × Except (CancellableError β ε) (Async α)) × List Polled :=
  match st with
  | none => ((⟨f', none⟩, inner), [Polled.primary])
  | some s =>
      match ps s with
      | (s', Except.ok (Async.Ready v)) =>
          ((⟨f', some s'⟩, Except.error (CancellableError.Cancelled v)),
            [Polled.primary, Polled.stopper])
      | (s', Except.ok Async.NotReady) =>
          ((⟨f', some s'⟩, inner), [Polled.primary, Polled.stopper])
      | (_, Except.error _) =>
          ((⟨f', none⟩, inner), [Polled.primary, Polled.stopper])

/-- Instrumented copy of `F01.Cancellable.poll` that also records, in order,
which children the call polled. -/
def Cancellable.pollTr {F S α β ε ε2 : Type}
    (pf : F → F × Except ε (Async α)) (ps : S → S × Except ε2 (Async β))
    (c : Cancellable F S) :
    (Cancellable F S × Except (CancellableError β ε) (Async α)) × List Polled :=
  match pf c.inner with
  | (f', Except.ok (Async.Ready v)) =>
      ((⟨f', c.stopper⟩, Except.ok (Async.Ready v)), [Polled.primary])
  | (f', Except.ok Async.NotReady) =>
      Cancellable.pollStopperTr ps f' c.stopper (Except.ok Async.NotReady)
  | (f', Except.error e) =>
      Cancellable.pollStopperTr ps f' c.stopper
        (Except.error (CancellableError.Errored e))

/-- Iterated polling: the combinator state after `n` poll calls. -/
def Cancellable.pollN {F S α β ε ε2 : Type}
    (pf : F → F × Except ε (Async α)) (ps : S → S × Except ε2 (Async β)) :
    Nat → Cancellable F S → Cancellable F S
  | 0, c => c
  | Nat.succ n, c => Cancellable.pollN pf ps n (Cancellable.poll pf ps c).1

/-- Fluent combinator construction (futures_01.rs
`FutureCancellable::cancel_with`): wraps the stopper in `Some`. -/
def FutureCancellable.cancel_with {F S : Type} (self : F) (stopper : S) :
    Cancellable F S :=
  ⟨self, some stopper⟩

/-- Free-function combinator construction (futures_01.rs `cancellable`):
wraps the stopper in `Some`. -/
def cancellable {F S : Type} (inner : F) (stopper : S) : Cancellable F S :=
  ⟨inner, some stopper⟩

end F01

namespace FStd

/-- Fluent construction of futures_std.rs (`cancel_with` taking a
zero-argument producer): the producer is called once, at attachment time, and
the produced stopper is stored.  The struct is the same as lib.rs's, so the
result is expressed on `Kyansel.Cancellable`. -/
def cancel_with {F S : Type} (self : F) (stopper : Unit → S) :
    Kyansel.Cancellable F S :=
  ⟨self, stopper ()⟩

/-- Copy of `FStd.cancel_with` with the producer's side effect made explicit:
the producer is a state-passing function, so the number of times it is
invoked is observable in the final producer state. -/
def cancel_withEff {F S π : Type} (self : F) (producer : π → S × π) (p : π) :
    Kyansel.Cancellable F S × π :=
  let sp := producer p
  (⟨self, sp.1⟩, sp.2)

end FStd

namespace Ex

/-- Concrete std-futures primary that is immediately ready with 42. -/
def pfReady : Nat → Nat × Kyansel.Poll Nat :=
  fun n => (n + 1, Kyansel.Poll.Ready 42)

/-- Concrete std-futures primary that is always pending. -/
def pfPend : Nat → Nat × Kyansel.Poll Nat :=
  fun n => (n + 1, Kyansel.Poll.Pending)

/-- Concrete std-futures stopper that is immediately ready with 9. -/
def psReady : Nat → Nat × Kyansel.Poll Nat :=
  fun m => (m + 3, Kyansel.Poll.Ready 9)

/-- Concrete std-futures stopper that is always pending. -/
def psPend : Nat → Nat × Kyansel.Poll Nat :=
  fun m => (m + 3, Kyansel.Poll.Pending)

/-- Concrete futures-0.1 primary that is immediately ready with 42. -/
def pfOkReady : Nat → Nat × Except Nat (F01.Async Nat) :=
  fun n => (n + 1, Except.ok (F01.Async.Ready 42))

/-- Concrete futures-0.1 primary that is always not ready. -/
def pfNotReady : Nat → Nat × Except Nat (F01.Async Nat) :=
  fun n => (n + 1, Except.ok F01.Async.NotReady)

/-- Concrete futures-0.1 primary that always fails with error 5. -/
def pfErr : Nat → Nat × Except Nat (F01.Async Nat) :=
  fun n => (n + 1, Except.error 5)

/-- Concrete futures-0.1 stopper that is immediately ready with 9. -/
def psOkReady : Nat → Nat × Except Nat (F01.Async Nat) :=
  fun m => (m + 3, Except.ok (F01.Async.Ready 9))

/-- Concrete futures-0.1 stopper that is always not ready. -/
def psNotReady : Nat → Nat × Except Nat (F01.Async Nat) :=
  fun m => (m + 3, Except.ok F01.Async.NotReady)

/-- Concrete futures-0.1 stopper that always fails with error 7. -/
def psErr : Nat → Nat × Except Nat (F01.Async Nat) :=
  fun m => (m + 3, Except.error 7)

end Ex

/-- Claim C1: whenever the primary's poll on this call returns ready with
value v, the combinator's poll returns the terminal outcome Finished v (in
the error-channel policy, Ok (Ready v)), the stopper state is left untouched,
and the stopper is not polled on that call (the trace is just [primary]) —
for every stopper step function, so in particular even when the stopper is
simultaneously ready. -/
theorem primary_ready_wins :
    (∀ (F S α β : Type) (pf : F → F × Kyansel.Poll α) (ps : S → S × Kyansel.Poll β)
        (c : Kyansel.Cancellable F S) (f' : F) (v : α),
        pf c.inner = (f', Kyansel.Poll.Ready v) →
        Kyansel.Cancellable.poll pf ps c
          = (⟨f', c.stopper⟩,
              Kyansel.Poll.Ready (Kyansel.CancellableResult.Finished v)) ∧
        (Kyansel.Cancellable.pollTr pf ps c).2 = [Polled.primary]) ∧
    (∀ (F S α β ε ε2 : Type) (pf : F → F × Except ε (F01.Async α))
        (ps : S → S × Except ε2 (F01.Async β)) (c : F01.Cancellable F S)
        (f' : F) (v : α),
        pf c.inner = (f', Except.ok (F01.Async.Ready v)) →
        F01.Cancellable.poll pf ps c
          = (⟨f', c.stopper⟩, Except.ok (F01.Async.Ready v)) ∧
        (F01.Cancellable.pollTr pf ps c).2 = [Polled.primary]) := by
  constructor
  · intro F S α β pf ps c f' v h
    exact ⟨by simp [Kyansel.Cancellable.poll, h],
           by simp [Kyansel.Cancellable.pollTr, h]⟩
  · intro F S α β ε ε2 pf ps c f' v h
    exact ⟨by simp [F01.Cancellable.poll, h],
           by simp [F01.Cancellable.pollTr, h]⟩

/-- Witness for C1 at concrete inputs: primary ready with 42 while the
stopper is simultaneously ready with 9; the result is Finished 42 and only
the primary was polled. -/
theorem primary_ready_wins_witness :
    Kyansel.Cancellable.poll Ex.pfReady Ex.psReady ⟨0, 0⟩
      = (⟨1, 0⟩, Kyansel.Poll.Ready (Kyansel.CancellableResult.Finished 42)) ∧
    (Kyansel.Cancellable.pollTr Ex.pfReady Ex.psReady
        (⟨0, 0⟩ : Kyansel.Cancellable Nat Nat)).2 = [Polled.primary] :=
  primary_ready_wins.1 Nat Nat Nat Nat Ex.pfReady Ex.psReady ⟨0, 0⟩ 1 42 rfl

/-- Claim C4: when the primary's poll is not ready on this call (std: Pending;
error-channel: Ok NotReady, so it has not failed) and the stopper's poll is
ready with value b, the combinator returns the terminal outcome Cancelled b
carrying the stopper's own output. -/
theorem stopper_ready_cancels :
    (∀ (F S α β : Type) (pf : F → F × Kyansel.Poll α) (ps : S → S × Kyansel.Poll β)
        (c : Kyansel.Cancellable F S) (f' : F) (s' : S) (b : β),
        pf c.inner = (f', Kyansel.Poll.Pending) →
        ps c.stopper = (s', Kyansel.Poll.Ready b) →
        Kyansel.Cancellable.poll pf ps c
          = (⟨f', s'⟩, Kyansel.Poll.Ready (Kyansel.CancellableResult.Cancelled b))) ∧
    (∀ (F S α β ε ε2 : Type) (pf : F → F × Except ε (F01.Async α))
        (ps : S → S × Except ε2 (F01.Async β)) (c : F01.Cancellable F S)
        (f' : F) (s s' : S) (b : β),
        pf c.inner = (f', Except.ok F01.Async.NotReady) →
        c.stopper = some s →
        ps s = (s', Except.ok (F01.Async.Ready b)) →
        F01.Cancellable.poll pf ps c
          = (⟨f', some s'⟩, Except.error (F01.CancellableError.Cancelled b))) := by
  constructor
  · intro F S α β pf ps c f' s' b hf hs
    simp [Kyansel.Cancellable.poll, hf, hs]
  · intro F S α β ε ε2 pf ps c f' s s' b hf hst hs
    simp [F01.Cancellable.poll, F01.Cancellable.pollStopper, hf, hst, hs]

/-- Witness for C4 at concrete inputs: primary pending, stopper ready with 9;
the result is Cancelled 9 (both policies). -/
theorem stopper_ready_cancels_witness :
    Kyansel.Cancellable.poll Ex.pfPend Ex.psReady ⟨0, 0⟩
      = (⟨1, 3⟩, Kyansel.Poll.Ready (Kyansel.CancellableResult.Cancelled 9)) ∧
    F01.Cancellable.poll Ex.pfNotReady Ex.psOkReady ⟨0, some 0⟩
      = (⟨1, some 3⟩, Except.error (F01.CancellableError.Cancelled 9)) :=
  ⟨stopper_ready_cancels.1 Nat Nat Nat Nat Ex.pfPend Ex.psReady ⟨0, 0⟩ 1 3 9 rfl rfl,
   stopper_ready_cancels.2 Nat Nat Nat Nat Nat Nat Ex.pfNotReady Ex.psOkReady
     ⟨0, some 0⟩ 1 0 3 9 rfl rfl rfl⟩

/-- Claim C5: when neither child is ready on this call (primary pending /
Ok NotReady, stopper pending / Ok NotReady or the slot already cleared), the
combinator's poll returns not-done, produces no outcome value, and the
resulting state is exactly the pair of the children's post-poll states — no
other state change. -/
theorem neither_ready_pending :
    (∀ (F S α β : Type) (pf : F → F × Kyansel.Poll α) (ps : S → S × Kyansel.Poll β)
        (c : Kyansel.Cancellable F S) (f' : F) (s' : S),
        pf c.inner = (f', Kyansel.Poll.Pending) →
        ps c.stopper = (s', Kyansel.Poll.Pending) →
        Kyansel.Cancellable.poll pf ps c = (⟨f', s'⟩, Kyansel.Poll.Pending)) ∧
    (∀ (F S α β ε ε2 : Type) (pf : F → F × Except ε (F01.Async α))
        (ps : S → S × Except ε2 (F01.Async β)) (c : F01.Cancellable F S)
        (f' : F) (s s' : S),
        pf c.inner = (f', Except.ok F01.Async.NotReady) →
        c.stopper = some s →
        ps s = (s', Except.ok F01.Async.NotReady) →
        F01.Cancellable.poll pf ps c
          = (⟨f', some s'⟩,
              (Except.ok F01.Async.NotReady :
                Except (F01.CancellableError β ε) (F01.Async α)))) ∧
    (∀ (F S α β ε ε2 : Type) (pf : F → F × Except ε (F01.Async α))
        (ps : S → S × Except ε2 (F01.Async β)) (c : F01.Cancellable F S)
        (f' : F),
        pf c.inner = (f', Except.ok F01.Async.NotReady) →
        c.stopper = none →
        F01.Cancellable.poll pf ps c
          = (⟨f', none⟩,
              (Except.ok F01.Async.NotReady :
                Except (F01.CancellableError β ε) (F01.Async α)))) := by
  refine ⟨?_, ?_, ?_⟩
  · intro F S α β pf ps c f' s' hf hs
    simp [Kyansel.Cancellable.poll, hf, hs]
  · intro F S α β ε ε2 pf ps c f' s s' hf hst hs
    simp [F01.Cancellable.poll, F01.Cancellable.pollStopper, hf, hst, hs]
  · intro F S α β ε ε2 pf ps c f' hf hst
    simp [F01.Cancellable.poll, F01.Cancellable.pollStopper, hf, hst]

/-- Witness for C5 at concrete inputs: both children pending; the poll stays
pending in both policies, with only the child states advanced. -/
theorem neither_ready_pending_witness :
    Kyansel.Cancellable.poll Ex.pfPend Ex.psPend ⟨0, 0⟩
      = (⟨1, 3⟩, Kyansel.Poll.Pending) ∧
    F01.Cancellable.poll Ex.pfNotReady Ex.psNotReady ⟨0, some 0⟩
      = (⟨1, some 3⟩,
          (Except.ok F01.Async.NotReady :
            Except (F01.CancellableError Nat Nat) (F01.Async Nat))) ∧
    F01.Cancellable.poll Ex.pfNotReady Ex.psNotReady ⟨0, none⟩
      = (⟨1, none⟩,
          (Except.ok F01.Async.NotReady :
            Except (F01.CancellableError Nat Nat) (F01.Async Nat))) :=
  ⟨neither_ready_pending.1 Nat Nat Nat Nat Ex.pfPend Ex.psPend ⟨0, 0⟩ 1 3 rfl rfl,
   neither_ready_pending.2.1 Nat Nat Nat Nat Nat Nat Ex.pfNotReady Ex.psNotReady
     ⟨0, some 0⟩ 1 0 3 rfl rfl rfl,
   neither_ready_pending.2.2 Nat Nat Nat Nat Nat Nat Ex.pfNotReady Ex.psNotReady
     ⟨0, none⟩ 1 rfl rfl⟩

/-- Helper: when the stopper slot is cleared, a poll of the futures-0.1
combinator is exactly a poll of the primary alone: the state keeps a cleared
slot and the result is the primary's own result (errors wrapped as
`Errored`), for every stopper step function. -/
theorem F01.poll_of_stopper_none {F S α β ε ε2 : Type}
    (pf : F → F × Except ε (F01.Async α)) (ps : S → S × Except ε2 (F01.Async β))
    (c : F01.Cancellable F S) (h : c.stopper = none) :
    F01.Cancellable.poll pf ps c
      = (⟨(pf c.inner).1, none⟩, F01.innerOutcome (pf c.inner).2) := by
  rcases hp : pf c.inner with ⟨f', r⟩
  cases r with
  | error e =>
      simp [F01.Cancellable.poll, F01.Cancellable.pollStopper, F01.innerOutcome, hp, h]
  | ok x =>
      cases x with
      | Ready v => simp [F01.Cancellable.poll, F01.innerOutcome, hp, h]
      | NotReady =>
          simp [F01.Cancellable.poll, F01.Cancellable.pollStopper, F01.innerOutcome,
            hp, h]

/-- Helper: a cleared stopper slot stays cleared under any number of polls,
and the iterated state does not depend on the stopper step function at
all. -/
theorem F01.pollN_of_stopper_none {F S α β ε ε2 : Type}
    (pf : F → F × Except ε (F01.Async α))
    (ps ps' : S → S × Except ε2 (F01.Async β)) :
    ∀ (n : Nat) (c : F01.Cancellable F S), c.stopper = none →
      (F01.Cancellable.pollN pf ps n c).stopper = none ∧
      F01.Cancellable.pollN pf ps n c = F01.Cancellable.pollN pf ps' n c := by
  intro n
  induction n with
  | zero => intro c h; exact ⟨h, rfl⟩
  | succ n ih =>
      intro c h
      have h1 := F01.poll_of_stopper_none pf ps c h
      have h2 := F01.poll_of_stopper_none pf ps' c h
      have hs1 : (F01.Cancellable.poll pf ps c).1 = ⟨(pf c.inner).1, none⟩ := by
        rw [h1]
      have hs2 : (F01.Cancellable.poll pf ps' c).1 = ⟨(pf c.inner).1, none⟩ := by
        rw [h2]
      have hrec := ih ⟨(pf c.inner).1, none⟩ rfl
      constructor
      · simp only [F01.Cancellable.pollN]
        rw [hs1]
        exact hrec.1
      · simp only [F01.Cancellable.pollN]
        rw [hs1, hs2]
        exact hrec.2

/-- Claim C2: in the error-channel policy, when the primary fails with e on
this call, the stopper (if its slot is present) is still consulted: a ready
stopper pre-empts the failure and the poll returns Err (Cancelled b); a
pending stopper, a failed stopper, or an already-cleared slot all let the
recorded failure through as Err (Errored e). -/
theorem primary_error_stopper_cases :
    ∀ (F S α β ε ε2 : Type) (pf : F → F × Except ε (F01.Async α))
      (ps : S → S × Except ε2 (F01.Async β)) (c : F01.Cancellable F S)
      (f' : F) (e : ε),
      pf c.inner = (f', Except.error e) →
      (∀ (s s' : S) (b : β), c.stopper = some s →
          ps s = (s', Except.ok (F01.Async.Ready b)) →
          F01.Cancellable.poll pf ps c
            = (⟨f', some s'⟩, Except.error (F01.CancellableError.Cancelled b))) ∧
      (∀ (s s' : S), c.stopper = some s →
          ps s = (s', Except.ok F01.Async.NotReady) →
          F01.Cancellable.poll pf ps c
            = (⟨f', some s'⟩, Except.error (F01.CancellableError.Errored e))) ∧
      (∀ (s s' : S) (e2 : ε2), c.stopper = some s →
          ps s = (s', Except.error e2) →
          F01.Cancellable.poll pf ps c
            = (⟨f', none⟩, Except.error (F01.CancellableError.Errored e))) ∧
      (c.stopper = none →
          F01.Cancellable.poll pf ps c
            = (⟨f', none⟩, Except.error (F01.CancellableError.Errored e))) := by
  intro F S α β ε ε2 pf ps c f' e hf
  refine ⟨?_, ?_, ?_, ?_⟩
  · intro s s' b hst hs
    simp [F01.Cancellable.poll, F01.Cancellable.pollStopper, hf, hst, hs]
  · intro s s' hst hs
    simp [F01.Cancellable.poll, F01.Cancellable.pollStopper, hf, hst, hs]
  · intro s s' e2 hst hs
    simp [F01.Cancellable.poll, F01.Cancellable.pollStopper, hf, hst, hs]
  · intro hst
    simp [F01.Cancellable.poll, F01.Cancellable.pollStopper, hf, hst]

/-- Witness for C2 at concrete inputs: primary fails with 5; a ready stopper
(value 9) yields Cancelled 9, while a pending stopper, a failed stopper, and
a cleared slot all yield Errored 5. -/
theorem primary_error_stopper_cases_witness :
    F01.Cancellable.poll Ex.pfErr Ex.psOkReady ⟨0, some 0⟩
      = (⟨1, some 3⟩, Except.error (F01.CancellableError.Cancelled 9)) ∧
    F01.Cancellable.poll Ex.pfErr Ex.psNotReady ⟨0, some 0⟩
      = (⟨1, some 3⟩, Except.error (F01.CancellableError.Errored 5)) ∧
    F01.Cancellable.poll Ex.pfErr Ex.psErr ⟨0, some 0⟩
      = (⟨1, none⟩, Except.error (F01.CancellableError.Errored 5)) ∧
    F01.Cancellable.poll Ex.pfErr Ex.psErr ⟨0, none⟩
      = (⟨1, none⟩, Except.error (F01.CancellableError.Errored 5)) :=
  ⟨(primary_error_stopper_cases Nat Nat Nat Nat Nat Nat Ex.pfErr Ex.psOkReady
      ⟨0, some 0⟩ 1 5 rfl).1 0 3 9 rfl rfl,
   (primary_error_stopper_cases Nat Nat Nat Nat Nat Nat Ex.pfErr Ex.psNotReady
      ⟨0, some 0⟩ 1 5 rfl).2.1 0 3 rfl rfl,
   (primary_error_stopper_cases Nat Nat Nat Nat Nat Nat Ex.pfErr Ex.psErr
      ⟨0, some 0⟩ 1 5 rfl).2.2.1 0 3 7 rfl rfl,
   (primary_error_stopper_cases Nat Nat Nat Nat Nat Nat Ex.pfErr Ex.psErr
      ⟨0, none⟩ 1 5 rfl).2.2.2 rfl⟩

/-- Claim C3: once the stopper fails on a poll call (whether the primary was
pending or failing on that call), the slot is cleared on that very call; and
from any cleared-slot state, any number of further polls keeps the slot
cleared, is independent of the stopper step function (the stopper is never
polled again), and each poll returns exactly what polling the primary alone
would return: not-done, the primary's success, or Errored of the primary's
failure.  All functions involved are total, so no poll can panic. -/
theorem stopper_failure_degrades :
    (∀ (F S α β ε ε2 : Type) (pf : F → F × Except ε (F01.Async α))
        (ps : S → S × Except ε2 (F01.Async β)) (c : F01.Cancellable F S)
        (f' : F) (s s' : S) (e2 : ε2),
        c.stopper = some s →
        pf c.inner = (f', Except.ok F01.Async.NotReady) →
        ps s = (s', Except.error e2) →
        F01.Cancellable.poll pf ps c
          = (⟨f', none⟩,
              (Except.ok F01.Async.NotReady :
                Except (F01.CancellableError β ε) (F01.Async α)))) ∧
    (∀ (F S α β ε ε2 : Type) (pf : F → F × Except ε (F01.Async α))
        (ps : S → S × Except ε2 (F01.Async β)) (c : F01.Cancellable F S)
        (f' : F) (e : ε) (s s' : S) (e2 : ε2),
        c.stopper = some s →
        pf c.inner = (f', Except.error e) →
        ps s = (s', Except.error e2) →
        F01.Cancellable.poll pf ps c
          = (⟨f', none⟩,
              (Except.error (F01.CancellableError.Errored e) :
                Except (F01.CancellableError β ε) (F01.Async α)))) ∧
    (∀ (F S α β ε ε2 : Type) (pf : F → F × Except ε (F01.Async α))
        (ps ps' : S → S × Except ε2 (F01.Async β)) (c : F01.Cancellable F S)
        (n : Nat),
        c.stopper = none →
        (F01.Cancellable.pollN pf ps n c).stopper = none ∧
        F01.Cancellable.pollN pf ps n c = F01.Cancellable.pollN pf ps' n c ∧
        (F01.Cancellable.poll pf ps (F01.Cancellable.pollN pf ps n c)).2
          = F01.innerOutcome (pf (F01.Cancellable.pollN pf ps n c).inner).2) := by
  refine ⟨?_, ?_, ?_⟩
  · intro F S α β ε ε2 pf ps c f' s s' e2 hst hf hs
    simp [F01.Cancellable.poll, F01.Cancellable.pollStopper, hf, hst, hs]
  · intro F S α β ε ε2 pf ps c f' e s s' e2 hst hf hs
    simp [F01.Cancellable.poll, F01.Cancellable.pollStopper, hf, hst, hs]
  · intro F S α β ε ε2 pf ps ps' c n h
    have hinv := F01.pollN_of_stopper_none pf ps ps' n c h
    refine ⟨hinv.1, hinv.2, ?_⟩
    rw [F01.poll_of_stopper_none pf ps _ hinv.1]

/-- Witness for C3 at concrete inputs: the stopper fails with 7 while the
primary is pending, so the very poll clears the slot; and two further polls
of a cleared-slot state keep it cleared, do not depend on the stopper step
function, and return the primary's own not-done result. -/
theorem stopper_failure_degrades_witness :
    F01.Cancellable.poll Ex.pfNotReady Ex.psErr ⟨0, some 0⟩
      = (⟨1, none⟩,
          (Except.ok F01.Async.NotReady :
            Except (F01.CancellableError Nat Nat) (F01.Async Nat))) ∧
    ((F01.Cancellable.pollN Ex.pfNotReady Ex.psErr 2 ⟨0, none⟩).stopper = none ∧
     F01.Cancellable.pollN Ex.pfNotReady Ex.psErr 2 ⟨0, none⟩
       = F01.Cancellable.pollN Ex.pfNotReady Ex.psNotReady 2 ⟨0, none⟩ ∧
     (F01.Cancellable.poll Ex.pfNotReady Ex.psErr
         (F01.Cancellable.pollN Ex.pfNotReady Ex.psErr 2 ⟨0, none⟩)).2
       = F01.innerOutcome
           (Ex.pfNotReady
             (F01.Cancellable.pollN Ex.pfNotReady Ex.psErr 2 ⟨0, none⟩).inner).2) :=
  ⟨stopper_failure_degrades.1 Nat Nat Nat Nat Nat Nat Ex.pfNotReady Ex.psErr
     ⟨0, some 0⟩ 1 0 3 7 rfl rfl rfl,
   stopper_failure_degrades.2.2 Nat Nat Nat Nat Nat Nat Ex.pfNotReady Ex.psErr
     Ex.psNotReady ⟨0, none⟩ 2 rfl⟩

/-- Helper: the instrumented stopper step projects onto the plain stopper
step, and its trace is either just the primary or the primary followed by the
stopper. -/
theorem F01.pollStopperTr_spec {F S α β ε ε2 : Type}
    (ps : S → S × Except ε2 (F01.Async β)) (f' : F) (st : Option S)
    (inner : Except (F01.CancellableError β ε) (F01.Async α)) :
    (F01.Cancellable.pollStopperTr ps f' st inner).1
      = F01.Cancellable.pollStopper ps f' st inner ∧
    ((F01.Cancellable.pollStopperTr ps f' st inner).2 = [Polled.primary] ∨
     (F01.Cancellable.pollStopperTr ps f' st inner).2
       = [Polled.primary, Polled.stopper]) := by
  cases st with
  | none =>
      exact ⟨rfl, Or.inl rfl⟩
  | some s =>
      rcases hs : ps s with ⟨s', r⟩
      cases r with
      | error e2 =>
          refine ⟨?_, Or.inr ?_⟩ <;>
            simp [F01.Cancellable.pollStopperTr, F01.Cancellable.pollStopper, hs]
      | ok x =>
          cases x with
          | Ready v =>
              refine ⟨?_, Or.inr ?_⟩ <;>
                simp [F01.Cancellable.pollStopperTr, F01.Cancellable.pollStopper, hs]
          | NotReady =>
              refine ⟨?_, Or.inr ?_⟩ <;>
                simp [F01.Cancellable.pollStopperTr, F01.Cancellable.pollStopper, hs]

/-- Claim C6: on every single poll invocation, the instrumented combinator
polls each child at most once and in a fixed order — its trace is either
[primary] or [primary, stopper], so the primary is always attempted first and
no child is attempted twice — the instrumentation projects onto the plain
poll, and the call returns exactly one of not-done or a done outcome (for the
error-channel policy: not-ready, ready, or an error). -/
theorem poll_attempts_ordered :
    (∀ (F S α β : Type) (pf : F → F × Kyansel.Poll α)
        (ps : S → S × Kyansel.Poll β) (c : Kyansel.Cancellable F S),
        (Kyansel.Cancellable.pollTr pf ps c).1 = Kyansel.Cancellable.poll pf ps c ∧
        ((Kyansel.Cancellable.pollTr pf ps c).2 = [Polled.primary] ∨
         (Kyansel.Cancellable.pollTr pf ps c).2
           = [Polled.primary, Polled.stopper]) ∧
        ((Kyansel.Cancellable.poll pf ps c).2 = Kyansel.Poll.Pending ∨
         ∃ o, (Kyansel.Cancellable.poll pf ps c).2 = Kyansel.Poll.Ready o)) ∧
    (∀ (F S α β ε ε2 : Type) (pf : F → F × Except ε (F01.Async α))
        (ps : S → S × Except ε2 (F01.Async β)) (c : F01.Cancellable F S),
        (F01.Cancellable.pollTr pf ps c).1 = F01.Cancellable.poll pf ps c ∧
        ((F01.Cancellable.pollTr pf ps c).2 = [Polled.primary] ∨
         (F01.Cancellable.pollTr pf ps c).2
           = [Polled.primary, Polled.stopper]) ∧
        ((F01.Cancellable.poll pf ps c).2 = Except.ok F01.Async.NotReady ∨
         (∃ v, (F01.Cancellable.poll pf ps c).2
             = Except.ok (F01.Async.Ready v)) ∨
         ∃ er, (F01.Cancellable.poll pf ps c).2 = Except.error er)) := by
  constructor
  · intro F S α β pf ps c
    rcases hp : pf c.inner with ⟨f', rf⟩
    cases rf with
    | Ready v =>
        refine ⟨?_, Or.inl ?_, Or.inr ⟨Kyansel.CancellableResult.Finished v, ?_⟩⟩ <;>
          simp [Kyansel.Cancellable.pollTr, Kyansel.Cancellable.poll, hp]
    | Pending =>
        rcases hs : ps c.stopper with ⟨s', rs⟩
        cases rs with
        | Ready b =>
            refine ⟨?_, Or.inr ?_,
                Or.inr ⟨Kyansel.CancellableResult.Cancelled b, ?_⟩⟩ <;>
              simp [Kyansel.Cancellable.pollTr, Kyansel.Cancellable.poll, hp, hs]
        | Pending =>
            refine ⟨?_, Or.inr ?_, Or.inl ?_⟩ <;>
              simp [Kyansel.Cancellable.pollTr, Kyansel.Cancellable.poll, hp, hs]
  · intro F S α β ε ε2 pf ps c
    rcases hp : pf c.inner with ⟨f', rf⟩
    cases rf with
    | ok x =>
        cases x with
        | Ready v =>
            refine ⟨?_, Or.inl ?_, Or.inr (Or.inl ⟨v, ?_⟩)⟩ <;>
              simp [F01.Cancellable.pollTr, F01.Cancellable.poll, hp]
        | NotReady =>
            have htr := F01.pollStopperTr_spec (ε := ε) (α := α) ps f' c.stopper
              (Except.ok F01.Async.NotReady)
            refine ⟨?_, ?_, ?_⟩
            · calc (F01.Cancellable.pollTr pf ps c).1
                  = (F01.Cancellable.pollStopperTr ps f' c.stopper
                      (Except.ok F01.Async.NotReady)).1 := by
                    simp [F01.Cancellable.pollTr, hp]
                _ = F01.Cancellable.pollStopper ps f' c.stopper
                      (Except.ok F01.Async.NotReady) := htr.1
                _ = F01.Cancellable.poll pf ps c := by
                    simp [F01.Cancellable.poll, hp]
            · have : (F01.Cancellable.pollTr pf ps c).2
                  = (F01.Cancellable.pollStopperTr ps f' c.stopper
                      ((Except.ok F01.Async.NotReady :
                        Except (F01.CancellableError β ε) (F01.Async α)))).2 := by
                simp [F01.Cancellable.pollTr, hp]
              rw [this]
              exact htr.2
            · have hres : F01.Cancellable.poll pf ps c
                  = F01.Cancellable.pollStopper ps f' c.stopper
                      (Except.ok F01.Async.NotReady) := by
                simp [F01.Cancellable.poll, hp]
              rw [hres]
              cases hst : c.stopper with
              | none => exact Or.inl (by simp [F01.Cancellable.pollStopper])
              | some s =>
                  rcases hs : ps s with ⟨s', r⟩
                  cases r with
                  | error e2 =>
                      exact Or.inl (by simp [F01.Cancellable.pollStopper, hs])
                  | ok y =>
                      cases y with
                      | Ready b =>
                          exact Or.inr (Or.inr ⟨F01.CancellableError.Cancelled b,
                            by simp [F01.Cancellable.pollStopper, hs]⟩)
                      | NotReady =>
                          exact Or.inl (by simp [F01.Cancellable.pollStopper, hs])
    | error e =>
        have htr := F01.pollStopperTr_spec (α := α) ps f' c.stopper
          (Except.error (F01.CancellableError.Errored e))
        refine ⟨?_, ?_, ?_⟩
        · calc (F01.Cancellable.pollTr pf ps c).1
              = (F01.Cancellable.pollStopperTr ps f' c.stopper
                  (Except.error (F01.CancellableError.Errored e))).1 := by
                simp [F01.Cancellable.pollTr, hp]
            _ = F01.Cancellable.pollStopper ps f' c.stopper
                  (Except.error (F01.CancellableError.Errored e)) := htr.1
            _ = F01.Cancellable.poll pf ps c := by
                simp [F01.Cancellable.poll, hp]
        · have : (F01.Cancellable.pollTr pf ps c).2
              = (F01.Cancellable.pollStopperTr ps f' c.stopper
                  ((Except.error (F01.CancellableError.Errored e) :
                    Except (F01.CancellableError β ε) (F01.Async α)))).2 := by
            simp [F01.Cancellable.pollTr, hp]
          rw [this]
          exact htr.2
        · have hres : F01.Cancellable.poll pf ps c
              = F01.Cancellable.pollStopper ps f' c.stopper
                  (Except.error (F01.CancellableError.Errored e)) := by
            simp [F01.Cancellable.poll, hp]
          rw [hres]
          cases hst : c.stopper with
          | none =>
              exact Or.inr (Or.inr ⟨F01.CancellableError.Errored e,
                by simp [F01.Cancellable.pollStopper]⟩)
          | some s =>
              rcases hs : ps s with ⟨s', r⟩
              cases r with
              | error e2 =>
                  exact Or.inr (Or.inr ⟨F01.CancellableError.Errored e,
                    by simp [F01.Cancellable.pollStopper, hs]⟩)
              | ok y =>
                  cases y with
                  | Ready b =>
                      exact Or.inr (Or.inr ⟨F01.CancellableError.Cancelled b,
                        by simp [F01.Cancellable.pollStopper, hs]⟩)
                  | NotReady =>
                      exact Or.inr (Or.inr ⟨F01.CancellableError.Errored e,
                        by simp [F01.Cancellable.pollStopper, hs]⟩)

/-- Claim C7: the outcome accessors are pure total functions consistent with
the tag, in both policies: is_cancelled is true exactly on the Cancelled tag,
finished / cancelled / errored return some exactly on their own tag, exactly
one extraction succeeds per value, and the predicate agrees with the
cancelled extraction. -/
theorem outcome_accessors_consistent :
    (∀ (T S : Type) (r : Kyansel.CancellableResult T S),
        (r.is_cancelled = true ↔ ∃ s, r = Kyansel.CancellableResult.Cancelled s) ∧
        (∀ t, r.finished = some t ↔ r = Kyansel.CancellableResult.Finished t) ∧
        (∀ s, r.cancelled = some s ↔ r = Kyansel.CancellableResult.Cancelled s) ∧
        r.finished.isSome = !r.cancelled.isSome ∧
        r.is_cancelled = r.cancelled.isSome) ∧
    (∀ (C E : Type) (x : F01.CancellableError C E),
        (x.is_cancelled = true ↔ ∃ c, x = F01.CancellableError.Cancelled c) ∧
        (∀ e, x.errored = some e ↔ x = F01.CancellableError.Errored e) ∧
        (∀ c, x.cancelled = some c ↔ x = F01.CancellableError.Cancelled c) ∧
        x.errored.isSome = !x.cancelled.isSome ∧
        x.is_cancelled = x.cancelled.isSome) := by
  constructor
  · intro T S r
    cases r <;>
      simp [Kyansel.CancellableResult.is_cancelled,
        Kyansel.CancellableResult.finished, Kyansel.CancellableResult.cancelled,
        eq_comm]
  · intro C E x
    cases x <;>
      simp [F01.CancellableError.is_cancelled, F01.CancellableError.errored,
        F01.CancellableError.cancelled, eq_comm]

/-- Claim C8: the free function and the fluent method build the same
combinator value (same inner and stopper fields), in both policies, and
therefore exhibit identical polling behavior on every poll call. -/
theorem construction_shapes_agree :
    (∀ (F S α β : Type) (f : F) (s : S) (pf : F → F × Kyansel.Poll α)
        (ps : S → S × Kyansel.Poll β),
        Kyansel.cancellable f s = Kyansel.FutureCancellable.cancel_with f s ∧
        Kyansel.Cancellable.poll pf ps (Kyansel.cancellable f s)
          = Kyansel.Cancellable.poll pf ps
              (Kyansel.FutureCancellable.cancel_with f s)) ∧
    (∀ (F S α β ε ε2 : Type) (f : F) (s : S)
        (pf : F → F × Except ε (F01.Async α))
        (ps : S → S × Except ε2 (F01.Async β)),
        F01.cancellable f s = F01.FutureCancellable.cancel_with f s ∧
        F01.Cancellable.poll pf ps (F01.cancellable f s)
          = F01.Cancellable.poll pf ps (F01.FutureCancellable.cancel_with f s)) :=
  ⟨fun _ _ _ _ _ _ _ _ => ⟨rfl, rfl⟩,
   fun _ _ _ _ _ _ _ _ _ _ => ⟨rfl, rfl⟩⟩

/-- Claim C9: the producer-based attachment of futures_std.rs calls the
producer exactly once, at attachment time, and the resulting combinator is
the one obtained by attaching the produced stopper value directly: with the
producer's effect made explicit as state passing, attachment advances the
producer state by exactly one application and stores exactly the produced
value. -/
theorem producer_invoked_once_at_attach :
    (∀ (F S : Type) (f : F) (g : Unit → S),
        FStd.cancel_with f g = Kyansel.cancellable f (g ())) ∧
    (∀ (F S π : Type) (f : F) (producer : π → S × π) (p : π),
        FStd.cancel_withEff f producer p
          = (Kyansel.cancellable f (producer p).1, (producer p).2)) :=
  ⟨fun _ _ _ _ => rfl, fun _ _ _ _ _ _ => rfl⟩

/-- Claim C10: construction is effect-free: every constructor stores its two
arguments unchanged (the error-channel constructors wrap the stopper as
some), takes no child step function, and so cannot poll either child; the
children are first polled only when the combinator's own poll runs. -/
theorem construction_effect_free :
    (∀ (F S : Type) (f : F) (s : S),
        (Kyansel.cancellable f s).inner = f ∧
        (Kyansel.cancellable f s).stopper = s ∧
        (Kyansel.FutureCancellable.cancel_with f s).inner = f ∧
        (Kyansel.FutureCancellable.cancel_with f s).stopper = s) ∧
    (∀ (F S : Type) (f : F) (s : S),
        (F01.cancellable f s).inner = f ∧
        (F01.cancellable f s).stopper = some s ∧
        (F01.FutureCancellable.cancel_with f s).inner = f ∧
        (F01.FutureCancellable.cancel_with f s).stopper = some s) ∧
    (∀ (F S : Type) (f : F) (g : Unit → S),
        (FStd.cancel_with f g).inner = f ∧
        (FStd.cancel_with f g).stopper = g ()) :=
  ⟨fun _ _ _ _ => ⟨rfl, rfl, rfl, rfl⟩,
   fun _ _ _ _ => ⟨rfl, rfl, rfl, rfl⟩,
   fun _ _ _ _ => ⟨rfl, rfl⟩⟩

/-- Witness for C6 at concrete inputs: the instrumented poll projects onto
the plain poll in both policies. -/
theorem poll_attempts_ordered_witness :
    (Kyansel.Cancellable.pollTr Ex.pfPend Ex.psReady
        (⟨0, 0⟩ : Kyansel.Cancellable Nat Nat)).1
      = Kyansel.Cancellable.poll Ex.pfPend Ex.psReady ⟨0, 0⟩ ∧
    (F01.Cancellable.pollTr Ex.pfNotReady Ex.psErr
        (⟨0, some 0⟩ : F01.Cancellable Nat Nat)).1
      = F01.Cancellable.poll Ex.pfNotReady Ex.psErr ⟨0, some 0⟩ :=
  ⟨(poll_attempts_ordered.1 Nat Nat Nat Nat Ex.pfPend Ex.psReady ⟨0, 0⟩).1,
   (poll_attempts_ordered.2 Nat Nat Nat Nat Nat Nat Ex.pfNotReady Ex.psErr
     ⟨0, some 0⟩).1⟩

/-- Witness for C7 at concrete outcome values: the predicate agrees with the
cancelled extraction and exactly one extraction succeeds. -/
theorem outcome_accessors_consistent_witness :
    (Kyansel.CancellableResult.Cancelled 9 :
        Kyansel.CancellableResult Nat Nat).is_cancelled
      = (Kyansel.CancellableResult.Cancelled 9 :
          Kyansel.CancellableResult Nat Nat).cancelled.isSome ∧
    (F01.CancellableError.Errored 5 : F01.CancellableError Nat Nat).errored.isSome
      = !(F01.CancellableError.Errored 5 :
          F01.CancellableError Nat Nat).cancelled.isSome :=
  ⟨(outcome_accessors_consistent.1 Nat Nat
      (Kyansel.CancellableResult.Cancelled 9)).2.2.2.2,
   (outcome_accessors_consistent.2 Nat Nat
      (F01.CancellableError.Errored 5)).2.2.2.1⟩

/-- Witness for C8 at concrete inputs: both construction shapes build the
same value in both policies. -/
theorem construction_shapes_agree_witness :
    Kyansel.cancellable 0 1 = Kyansel.FutureCancellable.cancel_with 0 1 ∧
    F01.cancellable 0 1 = F01.FutureCancellable.cancel_with 0 1 :=
  ⟨(construction_shapes_agree.1 Nat Nat Nat Nat 0 1 Ex.pfPend Ex.psPend).1,
   (construction_shapes_agree.2 Nat Nat Nat Nat Nat Nat 0 1 Ex.pfNotReady
     Ex.psNotReady).1⟩

/-- Witness for C9 at concrete inputs: attaching through a producer equals
attaching the produced value, and one effectful producer application occurs. -/
theorem producer_invoked_once_at_attach_witness :
    FStd.cancel_with 0 (fun _ => 5) = Kyansel.cancellable 0 5 ∧
    FStd.cancel_withEff 0 (fun n => (2 * n, n + 1)) 3
      = (Kyansel.cancellable 0 6, 4) :=
  ⟨producer_invoked_once_at_attach.1 Nat Nat 0 (fun _ => 5),
   producer_invoked_once_at_attach.2 Nat Nat Nat 0 (fun n => (2 * n, n + 1)) 3⟩

/-- Witness for C10 at concrete inputs: constructors store their arguments
unchanged. -/
theorem construction_effect_free_witness :
    (Kyansel.cancellable 0 1).inner = 0 ∧
    (F01.FutureCancellable.cancel_with 0 1).stopper = some 1 ∧
    (FStd.cancel_with 0 (fun _ => 5)).stopper = 5 :=
  ⟨(construction_effect_free.1 Nat Nat 0 1).1,
   (construction_effect_free.2.1 Nat Nat 0 1).2.2.2,
   (construction_effect_free.2.2 Nat Nat 0 (fun _ => 5)).2⟩
